import Mathlib

/-!
A shallow embedding of `src/output/uvc_output.cpp` (class `UVCOutput`), the
frame-output stage that delivers MJPEG/H.264 frames to a V4L2 loopback sink.

The external world (the V4L2 `write` syscall and the FFmpeg decoder, encoder,
scaler and allocator calls) is modelled by environment records whose fields
give the result of each external call made during one `outputBuffer`
invocation; the embedded functions consume those results exactly where the
C++ code consumes the corresponding return values.

Ghost fields (`detect_calls`, `setup_attempts`, `sws_rebuilds`) count
invocations of `detectInputFormat`, `setupTranscoder` and the
scaling-context rebuild branch; they are written only at those points and are
never read by the embedded code, so they do not alter its behaviour.
-/

namespace UVCOutput

/-- The `INPUT_FORMAT` enum of `uvc_output.hpp`. -/
inductive INPUT_FORMAT where
  | FORMAT_UNKNOWN
  | FORMAT_MJPEG
  | FORMAT_H264
  | FORMAT_RAW
deriving DecidableEq, Repr

/-- An FFmpeg codec context handle (`AVCodecContext *`): whether it has been
opened by `avcodec_open2`, and its current `width`/`height` fields (the
decoder library updates these as a side effect of decoding). -/
structure CodecCtx where
  opened : Bool
  width : Nat
  height : Nat
deriving DecidableEq, Repr

/-- A scaling context (`SwsContext *`) as configured by `sws_getContext`:
the source dimensions and source pixel format it was built with (the
destination is always `output_width × output_height`, `AV_PIX_FMT_YUVJ420P`). -/
structure SwsCfg where
  srcWidth : Nat
  srcHeight : Nat
  srcFormat : Nat
deriving DecidableEq, Repr

/-- The fourcc value `v4l2_fourcc('M','J','P','G')`. -/
def V4L2_PIX_FMT_MJPEG : Nat := 0x47504A4D

/-- The member state of a `UVCOutput` object, plus ghost instrumentation
counters. The triple-p in `droppped_frames` follows the `.cpp` spelling. -/
structure UVCState where
  v4l2_fd : Int
  output_format : Nat
  output_width : Nat
  output_height : Nat
  decoder_context : Option CodecCtx
  encoder_context : Option CodecCtx
  decode_frame : Bool
  encode_frame : Bool
  decode_packet : Bool
  encode_packet : Bool
  sws_ctx : Option SwsCfg
  transcoding_enabled : Bool
  first_frame : Bool
  input_format : INPUT_FORMAT
  transcode_buffer : Bool
  transcode_buffer_size : Nat
  frames_written : Nat
  bytes_written : Nat
  droppped_frames : Nat
  detect_calls : Nat
  setup_attempts : Nat
  sws_rebuilds : Nat
deriving DecidableEq, Repr

/-- Result of the `write(2)` syscall on the sink: an error (negative return)
or a count of bytes accepted. -/
inductive WriteResult where
  | err
  | ok (n : Nat)
deriving DecidableEq, Repr

/-- Results of the external FFmpeg calls made by `setupTranscoder`, one field
per fallible call, in source order. -/
structure SetupEnv where
  find_decoder_ok : Bool
  alloc_decoder_ok : Bool
  open_decoder_ok : Bool
  find_encoder_ok : Bool
  alloc_encoder_ok : Bool
  open_encoder_ok : Bool
  alloc_decode_frame_ok : Bool
  alloc_encode_frame_ok : Bool
  alloc_decode_packet_ok : Bool
  alloc_encode_packet_ok : Bool
  frame_get_buffer_ok : Bool
  alloc_transcode_buffer_ok : Bool
deriving DecidableEq, Repr

/-- A decoded picture produced by `avcodec_receive_frame`
(the fields of `decode_frame_` that the code reads). -/
structure Picture where
  width : Nat
  height : Nat
  fmt : Nat
deriving DecidableEq, Repr

/-- Results of the external FFmpeg calls made by `transcodeH264ToMJPEG`.
`receive_frame = none` models both `AVERROR(EAGAIN)` (decoder buffering) and
hard decode errors, which the code treats identically (return false).
`dec_ctx_width`/`dec_ctx_height` are the values the decoder leaves in
`decoder_context_->width/height` after a successful decode. -/
structure TranscodeEnv where
  send_packet_ok : Bool
  receive_frame : Option Picture
  dec_ctx_width : Nat
  dec_ctx_height : Nat
  sws_get_ok : Bool
  send_frame_ok : Bool
  receive_packet_size : Option Nat
  alloc_mjpeg_ok : Bool
deriving DecidableEq, Repr

/-- All external results consumed during a single `outputBuffer` call. -/
structure FrameEnv where
  setup : SetupEnv
  transcode : TranscodeEnv
  write_result : WriteResult
deriving DecidableEq, Repr

/-- Function `UVCOutput::isMJPEGFrame` (uvc_output.cpp:205-222): SOI marker at the
start, EOI marker at the end. -/
def isMJPEGFrame (mem : List Nat) : Bool :=
  if mem.length < 4 then false
  else if mem.getD 0 0 ≠ 0xFF ∨ mem.getD 1 0 ≠ 0xD8 then false
  else if mem.getD (mem.length - 2) 0 ≠ 0xFF ∨ mem.getD (mem.length - 1) 0 ≠ 0xD9 then false
  else true

/-- Function `UVCOutput::cleanupTranscoder` (uvc_output.cpp:414-454): free every
transcoder handle and disable transcoding. `transcode_buffer_size_` is zeroed
only when the buffer pointer was non-null, as in the source. -/
def cleanupTranscoder (s : UVCState) : UVCState :=
  { s with sws_ctx := none,
           decode_frame := false, encode_frame := false,
           decode_packet := false, encode_packet := false,
           decoder_context := none, encoder_context := none,
           transcode_buffer := false,
           transcode_buffer_size :=
             if s.transcode_buffer then 0 else s.transcode_buffer_size,
           transcoding_enabled := false }

/-- Function `UVCOutput::setupTranscoder` (uvc_output.cpp:240-334): build decoder,
encoder, frames/packets and the transcode buffer, calling
`cleanupTranscoder` on each failure path that follows the first successful
allocation, exactly as the source does. Increments the ghost attempt
counter. -/
def setupTranscoder (env : SetupEnv) (s0 : UVCState) : Bool × UVCState :=
  let s := { s0 with setup_attempts := s0.setup_attempts + 1 }
  if !env.find_decoder_ok then (false, s)
  else
    let s := { s with decoder_context :=
                 (if env.alloc_decoder_ok then some ⟨false, 0, 0⟩ else none) }
    if !env.alloc_decoder_ok then (false, s)
    else if !env.open_decoder_ok then (false, cleanupTranscoder s)
    else
      let s := { s with decoder_context := some ⟨true, 0, 0⟩ }
      if !env.find_encoder_ok then (false, cleanupTranscoder s)
      else
        let s := { s with encoder_context :=
                     (if env.alloc_encoder_ok then
                       some ⟨false, s.output_width, s.output_height⟩
                     else none) }
        if !env.alloc_encoder_ok then (false, cleanupTranscoder s)
        else if !env.open_encoder_ok then (false, cleanupTranscoder s)
        else
          let s := { s with encoder_context :=
                       (some ⟨true, s.output_width, s.output_height⟩) }
          let s := { s with decode_frame := env.alloc_decode_frame_ok,
                            encode_frame := env.alloc_encode_frame_ok,
                            decode_packet := env.alloc_decode_packet_ok,
                            encode_packet := env.alloc_encode_packet_ok }
          if !(s.decode_frame && s.encode_frame && s.decode_packet && s.encode_packet) then
            (false, cleanupTranscoder s)
          else if !env.frame_get_buffer_ok then (false, cleanupTranscoder s)
          else
            let s := { s with transcode_buffer_size :=
                         s.output_width * s.output_height * 3 }
            let s := { s with transcode_buffer := env.alloc_transcode_buffer_ok }
            if !env.alloc_transcode_buffer_ok then (false, cleanupTranscoder s)
            else (true, s)

/-- The transcoder-setup tail that `UVCOutput::detectInputFormat` repeats
verbatim in both H.264 branches (uvc_output.cpp:175-183 and 190-198):
when the sink format is MJPEG, attempt `setupTranscoder`, record its result
in `transcoding_enabled_`, and fail the detection if it failed. -/
def detectSetupH264 (env : SetupEnv) (s : UVCState) : Bool × UVCState :=
  if s.output_format = V4L2_PIX_FMT_MJPEG then
    let r := setupTranscoder env s
    let s2 := { r.2 with transcoding_enabled := r.1 }
    if !s2.transcoding_enabled then (false, s2) else (true, s2)
  else (true, s)

/-- Function `UVCOutput::detectInputFormat` (uvc_output.cpp:155-203). Note that the
H.264 checks use the strict comparisons `size > 4` and `size > 3` of the
source. Increments the ghost classification counter. -/
def detectInputFormat (env : SetupEnv) (s0 : UVCState) (mem : List Nat) :
    Bool × UVCState :=
  let s := { s0 with detect_calls := s0.detect_calls + 1 }
  if mem.length < 4 then (false, s)
  else if isMJPEGFrame mem then
    (true, { s with input_format := .FORMAT_MJPEG })
  else if mem.length > 4 ∧ mem.getD 0 0 = 0x00 ∧ mem.getD 1 0 = 0x00 ∧
          mem.getD 2 0 = 0x00 ∧ mem.getD 3 0 = 0x01 then
    detectSetupH264 env { s with input_format := .FORMAT_H264 }
  else if mem.length > 3 ∧ mem.getD 0 0 = 0x00 ∧ mem.getD 1 0 = 0x00 ∧
          mem.getD 2 0 = 0x01 then
    detectSetupH264 env { s with input_format := .FORMAT_H264 }
  else (false, s)

/-- Function `UVCOutput::outputMJPEGFrame` (uvc_output.cpp:224-238): a failed write
or a write of other than `size` bytes is a drop; a full write bumps
`frames_written_` and `bytes_written_`. -/
def outputMJPEGFrame (w : WriteResult) (s : UVCState) (size : Nat) : UVCState :=
  match w with
  | .err => { s with droppped_frames := s.droppped_frames + 1 }
  | .ok written =>
    if written ≠ size then { s with droppped_frames := s.droppped_frames + 1 }
    else { s with frames_written := s.frames_written + 1,
                  bytes_written := s.bytes_written + size }

/-- The encode tail of `UVCOutput::transcodeH264ToMJPEG`
(uvc_output.cpp:387-411): send the scaled frame, receive a packet, copy it
into a freshly malloc'd buffer whose size is returned. -/
def transcodeEncode (env : TranscodeEnv) (s : UVCState) : Option Nat × UVCState :=
  if !env.send_frame_ok then (none, s)
  else
    match env.receive_packet_size with
    | none => (none, s)
    | some psize =>
      if !env.alloc_mjpeg_ok then (none, s)
      else (some psize, s)

/-- Function `UVCOutput::transcodeH264ToMJPEG` (uvc_output.cpp:336-412). A successful
`avcodec_receive_frame` updates `decoder_context_->width/height` (library
side effect, chosen by the environment); the scaling context is then rebuilt
when absent or when the decoded picture's dimensions differ from the decoder
context's dimensions — the comparison the source makes at lines 363-364.
The rebuild branch increments the ghost rebuild counter. -/
def transcodeH264ToMJPEG (env : TranscodeEnv) (s0 : UVCState)
    (h264_size : Nat) : Option Nat × UVCState :=
  if !s0.transcoding_enabled then (none, s0)
  else if !env.send_packet_ok then (none, s0)
  else
    match env.receive_frame with
    | none => (none, s0)
    | some pic =>
      let s1 := { s0 with decoder_context :=
                    (s0.decoder_context.map fun c =>
                      { c with width := env.dec_ctx_width,
                               height := env.dec_ctx_height }) }
      let dw := (s1.decoder_context.map CodecCtx.width).getD 0
      let dh := (s1.decoder_context.map CodecCtx.height).getD 0
      if s1.sws_ctx = none ∨ pic.width ≠ dw ∨ pic.height ≠ dh then
        let s2 := { s1 with sws_rebuilds := s1.sws_rebuilds + 1 }
        if env.sws_get_ok then
          transcodeEncode env
            { s2 with sws_ctx := some ⟨pic.width, pic.height, pic.fmt⟩ }
        else (none, { s2 with sws_ctx := none })
      else transcodeEncode env s1

/-- The `switch (input_format_)` dispatch of `UVCOutput::outputBuffer`
(uvc_output.cpp:126-152). -/
def routeFrame (env : FrameEnv) (s : UVCState) (mem : List Nat) : UVCState :=
  match s.input_format with
  | .FORMAT_MJPEG => outputMJPEGFrame env.write_result s mem.length
  | .FORMAT_H264 =>
    if s.transcoding_enabled then
      let r := transcodeH264ToMJPEG env.transcode s mem.length
      match r.1 with
      | some mjpeg_size => outputMJPEGFrame env.write_result r.2 mjpeg_size
      | none => { r.2 with droppped_frames := r.2.droppped_frames + 1 }
    else { s with droppped_frames := s.droppped_frames + 1 }
  | _ => { s with droppped_frames := s.droppped_frames + 1 }

/-- Function `UVCOutput::outputBuffer` (uvc_output.cpp:107-153). `timestamp_us` and
`flags` are parameters of the source signature that its body never reads. -/
def outputBuffer (env : FrameEnv) (s : UVCState) (mem : List Nat)
    (timestamp_us : Int) (flags : Nat) : UVCState :=
  if s.v4l2_fd < 0 then
    { s with droppped_frames := s.droppped_frames + 1 }
  else if s.first_frame then
    let r := detectInputFormat env.setup s mem
    if r.1 = false then
      { r.2 with droppped_frames := r.2.droppped_frames + 1 }
    else routeFrame env { r.2 with first_frame := false } mem
  else routeFrame env s mem

/-- The member state established by the `UVCOutput` constructor
(uvc_output.cpp:23-50) after `setupV4L2Device` succeeded (on failure the
constructor throws and no object exists); `fd` is the non-negative
descriptor returned by `open`. -/
def initState (fd : Int) (w h : Nat) : UVCState :=
  { v4l2_fd := fd, output_format := V4L2_PIX_FMT_MJPEG,
    output_width := w, output_height := h,
    decoder_context := none, encoder_context := none,
    decode_frame := false, encode_frame := false,
    decode_packet := false, encode_packet := false,
    sws_ctx := none, transcoding_enabled := false, first_frame := true,
    input_format := .FORMAT_UNKNOWN,
    transcode_buffer := false, transcode_buffer_size := 0,
    frames_written := 0, bytes_written := 0, droppped_frames := 0,
    detect_calls := 0, setup_attempts := 0, sws_rebuilds := 0 }

/-- A sequence of `outputBuffer` calls on one instance (timestamps and flags
fixed at 0; by `outputBuffer` they are never read). -/
def runFrames (s : UVCState) (frames : List (FrameEnv × List Nat)) : UVCState :=
  frames.foldl (fun st f => outputBuffer f.1 st f.2 0 0) s

/-- Predicate telling when `setupTranscoder` succeeds: exactly when every external call succeeds. -/
def setupSucceeds (e : SetupEnv) : Bool :=
  e.find_decoder_ok && e.alloc_decoder_ok && e.open_decoder_ok &&
  e.find_encoder_ok && e.alloc_encoder_ok && e.open_encoder_ok &&
  e.alloc_decode_frame_ok && e.alloc_encode_frame_ok &&
  e.alloc_decode_packet_ok && e.alloc_encode_packet_ok &&
  e.frame_get_buffer_ok && e.alloc_transcode_buffer_ok
/-! Concrete environments used by witnesses and counterexamples -/

/-- An environment where every external call succeeds: the transcoder builds,
the decoder yields a 64×48 picture (and records 64×48 in its context), the
encoder emits a 100-byte packet, and the sink accepts a 100-byte write. -/
def envAllOk : FrameEnv :=
  ⟨⟨true, true, true, true, true, true, true, true, true, true, true, true⟩,
   ⟨true, some ⟨64, 48, 0⟩, 64, 48, true, true, some 100, true⟩,
   WriteResult.ok 100⟩

/-- Like `envAllOk` but the sink accepts exactly 6 bytes. -/
def envWrite6 : FrameEnv :=
  ⟨⟨true, true, true, true, true, true, true, true, true, true, true, true⟩,
   ⟨true, some ⟨64, 48, 0⟩, 64, 48, true, true, some 100, true⟩,
   WriteResult.ok 6⟩

/-- An environment where `avcodec_find_decoder` fails, so `setupTranscoder`
fails; everything else succeeds. -/
def envSetupFail : FrameEnv :=
  ⟨⟨false, true, true, true, true, true, true, true, true, true, true, true⟩,
   ⟨true, some ⟨64, 48, 0⟩, 64, 48, true, true, some 100, true⟩,
   WriteResult.ok 100⟩

/-- An environment where the transcoder builds but the first
`avcodec_receive_frame` reports `EAGAIN` (decoder still buffering). -/
def envDecoderBuffering : FrameEnv :=
  ⟨⟨true, true, true, true, true, true, true, true, true, true, true, true⟩,
   ⟨true, none, 0, 0, true, true, some 100, true⟩,
   WriteResult.ok 100⟩

/-- Like `envAllOk` but the stream resolution has dropped to 32×24: the
decoded picture is 32×24 and the decoder context now also reports 32×24,
as libavcodec keeps its context dimensions in step with the stream. -/
def envShrunkPicture : FrameEnv :=
  ⟨⟨true, true, true, true, true, true, true, true, true, true, true, true⟩,
   ⟨true, some ⟨32, 24, 0⟩, 32, 24, true, true, some 100, true⟩,
   WriteResult.ok 100⟩

/-- A state in which the first frame has already been classified MJPEG. -/
def classifiedState : UVCState :=
  { initState 3 64 48 with first_frame := false,
                           input_format := INPUT_FORMAT.FORMAT_MJPEG }

/-- The `TranscodeContext` invariant as it actually holds in the code: when
`transcoding_enabled_` is true the decoder context, encoder context, the
four frames/packets and the transcode buffer are allocated (contexts
opened); the scaling context is NOT included, since the code builds it
lazily inside `transcodeH264ToMJPEG`. When `transcoding_enabled_` is false,
every transcoder handle including the scaling context is absent. -/
def transcoderInv (s : UVCState) : Prop :=
  (s.transcoding_enabled = true →
    s.decoder_context.map CodecCtx.opened = some true ∧
    s.encoder_context.map CodecCtx.opened = some true ∧
    s.decode_frame = true ∧ s.encode_frame = true ∧
    s.decode_packet = true ∧ s.encode_packet = true ∧
    s.transcode_buffer = true) ∧
  (s.transcoding_enabled = false →
    s.decoder_context = none ∧ s.encoder_context = none ∧
    s.decode_frame = false ∧ s.encode_frame = false ∧
    s.decode_packet = false ∧ s.encode_packet = false ∧
    s.sws_ctx = none ∧ s.transcode_buffer = false)

/-- Strengthening of `transcoderInv` that is inductive for `outputBuffer`:
while the stream is unclassified (`first_frame_` still true) transcoding is
disabled. -/
def stateInv (s : UVCState) : Prop :=
  transcoderInv s ∧ (s.first_frame = true → s.transcoding_enabled = false)

/-- A state in mid-stream H.264 transcoding: transcoder built and a scaling
context configured for 64×48 source pictures. -/
def transcodingState : UVCState :=
  { initState 3 64 48 with
      first_frame := false,
      input_format := INPUT_FORMAT.FORMAT_H264,
      transcoding_enabled := true,
      decoder_context := (some ⟨true, 64, 48⟩),
      encoder_context := (some ⟨true, 64, 48⟩),
      decode_frame := true, encode_frame := true,
      decode_packet := true, encode_packet := true,
      transcode_buffer := true, transcode_buffer_size := 64 * 48 * 3,
      sws_ctx := (some ⟨64, 48, 0⟩) }

end UVCOutput


namespace UVCOutput

/-! Characterization of the transcoder construction -/

/-- Full characterization of `setupTranscoder`: success installs every
transcoder handle (but never touches `sws_ctx_`, which stays as it was);
each failure path leaves the handles cleared, either because nothing had
been allocated yet or because `cleanupTranscoder` ran. -/
theorem setupTranscoder_eq (e : SetupEnv) (s : UVCState) :
    setupTranscoder e s =
      (if !e.find_decoder_ok then
        (false, { s with setup_attempts := s.setup_attempts + 1 })
      else if !e.alloc_decoder_ok then
        (false, { s with decoder_context := none,
                         setup_attempts := s.setup_attempts + 1 })
      else if !(e.open_decoder_ok && e.find_encoder_ok && e.alloc_encoder_ok &&
                e.open_encoder_ok && e.alloc_decode_frame_ok &&
                e.alloc_encode_frame_ok && e.alloc_decode_packet_ok &&
                e.alloc_encode_packet_ok && e.frame_get_buffer_ok) then
        (false, { s with sws_ctx := none, decode_frame := false,
                         encode_frame := false, decode_packet := false,
                         encode_packet := false, decoder_context := none,
                         encoder_context := none, transcode_buffer := false,
                         transcode_buffer_size :=
                           (if s.transcode_buffer then 0 else s.transcode_buffer_size),
                         transcoding_enabled := false,
                         setup_attempts := s.setup_attempts + 1 })
      else if !e.alloc_transcode_buffer_ok then
        (false, { s with sws_ctx := none, decode_frame := false,
                         encode_frame := false, decode_packet := false,
                         encode_packet := false, decoder_context := none,
                         encoder_context := none, transcode_buffer := false,
                         transcode_buffer_size := s.output_width * s.output_height * 3,
                         transcoding_enabled := false,
                         setup_attempts := s.setup_attempts + 1 })
      else
        (true, { s with decoder_context := (some ⟨true, 0, 0⟩),
                        encoder_context := (some ⟨true, s.output_width, s.output_height⟩),
                        decode_frame := true, encode_frame := true,
                        decode_packet := true, encode_packet := true,
                        transcode_buffer := true,
                        transcode_buffer_size := s.output_width * s.output_height * 3,
                        setup_attempts := s.setup_attempts + 1 })) := by
  rcases e with ⟨b1, b2, b3, b4, b5, b6, b7, b8, b9, b10, b11, b12⟩
  cases b1 with
  | false => rfl
  | true =>
  cases b2 with
  | false => rfl
  | true =>
  cases b3 with
  | false => rfl
  | true =>
  cases b4 with
  | false => rfl
  | true =>
  cases b5 with
  | false => rfl
  | true =>
  cases b6 with
  | false => rfl
  | true =>
  cases b7 with
  | false => rfl
  | true =>
  cases b8 with
  | false => rfl
  | true =>
  cases b9 with
  | false => rfl
  | true =>
  cases b10 with
  | false => rfl
  | true =>
  cases b11 with
  | false => rfl
  | true =>
  cases b12 with
  | false => rfl
  | true => rfl

theorem setup_fst (e : SetupEnv) (s : UVCState) :
    (setupTranscoder e s).1 = setupSucceeds e := by
  rw [setupTranscoder_eq]
  repeat' split
  all_goals simp_all [setupSucceeds]
  all_goals (intros ; simp_all)


theorem setup_frames_written (e : SetupEnv) (s : UVCState) :
    (setupTranscoder e s).2.frames_written = s.frames_written := by
  rw [setupTranscoder_eq]
  repeat' split
  all_goals rfl

theorem setup_bytes_written (e : SetupEnv) (s : UVCState) :
    (setupTranscoder e s).2.bytes_written = s.bytes_written := by
  rw [setupTranscoder_eq]
  repeat' split
  all_goals rfl

theorem setup_droppped (e : SetupEnv) (s : UVCState) :
    (setupTranscoder e s).2.droppped_frames = s.droppped_frames := by
  rw [setupTranscoder_eq]
  repeat' split
  all_goals rfl

theorem setup_first_frame (e : SetupEnv) (s : UVCState) :
    (setupTranscoder e s).2.first_frame = s.first_frame := by
  rw [setupTranscoder_eq]
  repeat' split
  all_goals rfl

theorem setup_input_format (e : SetupEnv) (s : UVCState) :
    (setupTranscoder e s).2.input_format = s.input_format := by
  rw [setupTranscoder_eq]
  repeat' split
  all_goals rfl

theorem setup_detect_calls (e : SetupEnv) (s : UVCState) :
    (setupTranscoder e s).2.detect_calls = s.detect_calls := by
  rw [setupTranscoder_eq]
  repeat' split
  all_goals rfl

theorem setup_v4l2_fd (e : SetupEnv) (s : UVCState) :
    (setupTranscoder e s).2.v4l2_fd = s.v4l2_fd := by
  rw [setupTranscoder_eq]
  repeat' split
  all_goals rfl

theorem setup_output_format (e : SetupEnv) (s : UVCState) :
    (setupTranscoder e s).2.output_format = s.output_format := by
  rw [setupTranscoder_eq]
  repeat' split
  all_goals rfl

theorem setup_attempts_succ (e : SetupEnv) (s : UVCState) :
    (setupTranscoder e s).2.setup_attempts = s.setup_attempts + 1 := by
  rw [setupTranscoder_eq]
  repeat' split
  all_goals rfl

theorem transcodeEncode_snd (e : TranscodeEnv) (s : UVCState) :
    (transcodeEncode e s).2 = s := by
  simp only [transcodeEncode]
  repeat' split
  all_goals rfl

theorem transcode_frames_written (e : TranscodeEnv) (s : UVCState) (n : Nat) :
    (transcodeH264ToMJPEG e s n).2.frames_written = s.frames_written := by
  simp only [transcodeH264ToMJPEG]
  repeat' split
  all_goals simp [transcodeEncode_snd]

theorem transcode_bytes_written (e : TranscodeEnv) (s : UVCState) (n : Nat) :
    (transcodeH264ToMJPEG e s n).2.bytes_written = s.bytes_written := by
  simp only [transcodeH264ToMJPEG]
  repeat' split
  all_goals simp [transcodeEncode_snd]

theorem transcode_droppped (e : TranscodeEnv) (s : UVCState) (n : Nat) :
    (transcodeH264ToMJPEG e s n).2.droppped_frames = s.droppped_frames := by
  simp only [transcodeH264ToMJPEG]
  repeat' split
  all_goals simp [transcodeEncode_snd]

theorem transcode_first_frame (e : TranscodeEnv) (s : UVCState) (n : Nat) :
    (transcodeH264ToMJPEG e s n).2.first_frame = s.first_frame := by
  simp only [transcodeH264ToMJPEG]
  repeat' split
  all_goals simp [transcodeEncode_snd]

theorem transcode_input_format (e : TranscodeEnv) (s : UVCState) (n : Nat) :
    (transcodeH264ToMJPEG e s n).2.input_format = s.input_format := by
  simp only [transcodeH264ToMJPEG]
  repeat' split
  all_goals simp [transcodeEncode_snd]

theorem transcode_detect_calls (e : TranscodeEnv) (s : UVCState) (n : Nat) :
    (transcodeH264ToMJPEG e s n).2.detect_calls = s.detect_calls := by
  simp only [transcodeH264ToMJPEG]
  repeat' split
  all_goals simp [transcodeEncode_snd]

theorem transcode_setup_attempts (e : TranscodeEnv) (s : UVCState) (n : Nat) :
    (transcodeH264ToMJPEG e s n).2.setup_attempts = s.setup_attempts := by
  simp only [transcodeH264ToMJPEG]
  repeat' split
  all_goals simp [transcodeEncode_snd]

theorem transcode_enabled (e : TranscodeEnv) (s : UVCState) (n : Nat) :
    (transcodeH264ToMJPEG e s n).2.transcoding_enabled = s.transcoding_enabled := by
  simp only [transcodeH264ToMJPEG]
  repeat' split
  all_goals simp [transcodeEncode_snd]

theorem transcode_encoder_context (e : TranscodeEnv) (s : UVCState) (n : Nat) :
    (transcodeH264ToMJPEG e s n).2.encoder_context = s.encoder_context := by
  simp only [transcodeH264ToMJPEG]
  repeat' split
  all_goals simp [transcodeEncode_snd]

theorem transcode_decode_frame (e : TranscodeEnv) (s : UVCState) (n : Nat) :
    (transcodeH264ToMJPEG e s n).2.decode_frame = s.decode_frame := by
  simp only [transcodeH264ToMJPEG]
  repeat' split
  all_goals simp [transcodeEncode_snd]

theorem transcode_encode_frame (e : TranscodeEnv) (s : UVCState) (n : Nat) :
    (transcodeH264ToMJPEG e s n).2.encode_frame = s.encode_frame := by
  simp only [transcodeH264ToMJPEG]
  repeat' split
  all_goals simp [transcodeEncode_snd]

theorem transcode_decode_packet (e : TranscodeEnv) (s : UVCState) (n : Nat) :
    (transcodeH264ToMJPEG e s n).2.decode_packet = s.decode_packet := by
  simp only [transcodeH264ToMJPEG]
  repeat' split
  all_goals simp [transcodeEncode_snd]

theorem transcode_encode_packet (e : TranscodeEnv) (s : UVCState) (n : Nat) :
    (transcodeH264ToMJPEG e s n).2.encode_packet = s.encode_packet := by
  simp only [transcodeH264ToMJPEG]
  repeat' split
  all_goals simp [transcodeEncode_snd]

theorem transcode_buffer_kept (e : TranscodeEnv) (s : UVCState) (n : Nat) :
    (transcodeH264ToMJPEG e s n).2.transcode_buffer = s.transcode_buffer := by
  simp only [transcodeH264ToMJPEG]
  repeat' split
  all_goals simp [transcodeEncode_snd]

theorem transcode_v4l2_fd (e : TranscodeEnv) (s : UVCState) (n : Nat) :
    (transcodeH264ToMJPEG e s n).2.v4l2_fd = s.v4l2_fd := by
  simp only [transcodeH264ToMJPEG]
  repeat' split
  all_goals simp [transcodeEncode_snd]

theorem transcode_decoder_opened (e : TranscodeEnv) (s : UVCState) (n : Nat) :
    (transcodeH264ToMJPEG e s n).2.decoder_context.map CodecCtx.opened =
      s.decoder_context.map CodecCtx.opened := by
  simp only [transcodeH264ToMJPEG]
  repeat' split
  all_goals simp [transcodeEncode_snd]
  all_goals cases s.decoder_context <;> rfl


theorem omf_first_frame (w : WriteResult) (s : UVCState) (size : Nat) :
    (outputMJPEGFrame w s size).first_frame = s.first_frame := by
  cases w
  · rfl
  · simp only [outputMJPEGFrame]
    split
    all_goals rfl

theorem omf_input_format (w : WriteResult) (s : UVCState) (size : Nat) :
    (outputMJPEGFrame w s size).input_format = s.input_format := by
  cases w
  · rfl
  · simp only [outputMJPEGFrame]
    split
    all_goals rfl

theorem omf_detect_calls (w : WriteResult) (s : UVCState) (size : Nat) :
    (outputMJPEGFrame w s size).detect_calls = s.detect_calls := by
  cases w
  · rfl
  · simp only [outputMJPEGFrame]
    split
    all_goals rfl

theorem omf_setup_attempts (w : WriteResult) (s : UVCState) (size : Nat) :
    (outputMJPEGFrame w s size).setup_attempts = s.setup_attempts := by
  cases w
  · rfl
  · simp only [outputMJPEGFrame]
    split
    all_goals rfl

theorem omf_transcoding_enabled (w : WriteResult) (s : UVCState) (size : Nat) :
    (outputMJPEGFrame w s size).transcoding_enabled = s.transcoding_enabled := by
  cases w
  · rfl
  · simp only [outputMJPEGFrame]
    split
    all_goals rfl

theorem omf_decoder_context (w : WriteResult) (s : UVCState) (size : Nat) :
    (outputMJPEGFrame w s size).decoder_context = s.decoder_context := by
  cases w
  · rfl
  · simp only [outputMJPEGFrame]
    split
    all_goals rfl

theorem omf_encoder_context (w : WriteResult) (s : UVCState) (size : Nat) :
    (outputMJPEGFrame w s size).encoder_context = s.encoder_context := by
  cases w
  · rfl
  · simp only [outputMJPEGFrame]
    split
    all_goals rfl

theorem omf_decode_frame (w : WriteResult) (s : UVCState) (size : Nat) :
    (outputMJPEGFrame w s size).decode_frame = s.decode_frame := by
  cases w
  · rfl
  · simp only [outputMJPEGFrame]
    split
    all_goals rfl

theorem omf_encode_frame (w : WriteResult) (s : UVCState) (size : Nat) :
    (outputMJPEGFrame w s size).encode_frame = s.encode_frame := by
  cases w
  · rfl
  · simp only [outputMJPEGFrame]
    split
    all_goals rfl

theorem omf_decode_packet (w : WriteResult) (s : UVCState) (size : Nat) :
    (outputMJPEGFrame w s size).decode_packet = s.decode_packet := by
  cases w
  · rfl
  · simp only [outputMJPEGFrame]
    split
    all_goals rfl

theorem omf_encode_packet (w : WriteResult) (s : UVCState) (size : Nat) :
    (outputMJPEGFrame w s size).encode_packet = s.encode_packet := by
  cases w
  · rfl
  · simp only [outputMJPEGFrame]
    split
    all_goals rfl

theorem omf_sws_ctx (w : WriteResult) (s : UVCState) (size : Nat) :
    (outputMJPEGFrame w s size).sws_ctx = s.sws_ctx := by
  cases w
  · rfl
  · simp only [outputMJPEGFrame]
    split
    all_goals rfl

theorem omf_transcode_buffer (w : WriteResult) (s : UVCState) (size : Nat) :
    (outputMJPEGFrame w s size).transcode_buffer = s.transcode_buffer := by
  cases w
  · rfl
  · simp only [outputMJPEGFrame]
    split
    all_goals rfl

theorem omf_v4l2_fd (w : WriteResult) (s : UVCState) (size : Nat) :
    (outputMJPEGFrame w s size).v4l2_fd = s.v4l2_fd := by
  cases w
  · rfl
  · simp only [outputMJPEGFrame]
    split
    all_goals rfl

theorem omf_sws_rebuilds (w : WriteResult) (s : UVCState) (size : Nat) :
    (outputMJPEGFrame w s size).sws_rebuilds = s.sws_rebuilds := by
  cases w
  · rfl
  · simp only [outputMJPEGFrame]
    split
    all_goals rfl

theorem outputMJPEGFrame_cases (w : WriteResult) (s : UVCState) (size : Nat) :
    ((outputMJPEGFrame w s size).frames_written = s.frames_written + 1 ∧
     (outputMJPEGFrame w s size).droppped_frames = s.droppped_frames) ∨
    ((outputMJPEGFrame w s size).frames_written = s.frames_written ∧
     (outputMJPEGFrame w s size).droppped_frames = s.droppped_frames + 1) := by
  cases w
  · right
    exact ⟨rfl, rfl⟩
  · simp only [outputMJPEGFrame]
    split
    · right
      exact ⟨rfl, rfl⟩
    · left
      exact ⟨rfl, rfl⟩

theorem dsh_frames_written (e : SetupEnv) (s : UVCState) :
    (detectSetupH264 e s).2.frames_written = s.frames_written := by
  simp only [detectSetupH264]
  repeat' split
  all_goals simp [setup_frames_written]

theorem dsh_bytes_written (e : SetupEnv) (s : UVCState) :
    (detectSetupH264 e s).2.bytes_written = s.bytes_written := by
  simp only [detectSetupH264]
  repeat' split
  all_goals simp [setup_bytes_written]

theorem dsh_droppped_frames (e : SetupEnv) (s : UVCState) :
    (detectSetupH264 e s).2.droppped_frames = s.droppped_frames := by
  simp only [detectSetupH264]
  repeat' split
  all_goals simp [setup_droppped]

theorem dsh_first_frame (e : SetupEnv) (s : UVCState) :
    (detectSetupH264 e s).2.first_frame = s.first_frame := by
  simp only [detectSetupH264]
  repeat' split
  all_goals simp [setup_first_frame]

theorem dsh_v4l2_fd (e : SetupEnv) (s : UVCState) :
    (detectSetupH264 e s).2.v4l2_fd = s.v4l2_fd := by
  simp only [detectSetupH264]
  repeat' split
  all_goals simp [setup_v4l2_fd]

theorem dsh_detect_calls (e : SetupEnv) (s : UVCState) :
    (detectSetupH264 e s).2.detect_calls = s.detect_calls := by
  simp only [detectSetupH264]
  repeat' split
  all_goals simp [setup_detect_calls]

theorem dsh_input_format (e : SetupEnv) (s : UVCState) :
    (detectSetupH264 e s).2.input_format = s.input_format := by
  simp only [detectSetupH264]
  repeat' split
  all_goals simp [setup_input_format]

theorem detect_frames_written (e : SetupEnv) (s : UVCState) (mem : List Nat) :
    (detectInputFormat e s mem).2.frames_written = s.frames_written := by
  simp only [detectInputFormat]
  repeat' split
  all_goals simp [dsh_frames_written]

theorem detect_bytes_written (e : SetupEnv) (s : UVCState) (mem : List Nat) :
    (detectInputFormat e s mem).2.bytes_written = s.bytes_written := by
  simp only [detectInputFormat]
  repeat' split
  all_goals simp [dsh_bytes_written]

theorem detect_droppped_frames (e : SetupEnv) (s : UVCState) (mem : List Nat) :
    (detectInputFormat e s mem).2.droppped_frames = s.droppped_frames := by
  simp only [detectInputFormat]
  repeat' split
  all_goals simp [dsh_droppped_frames]

theorem detect_first_frame (e : SetupEnv) (s : UVCState) (mem : List Nat) :
    (detectInputFormat e s mem).2.first_frame = s.first_frame := by
  simp only [detectInputFormat]
  repeat' split
  all_goals simp [dsh_first_frame]

theorem detect_v4l2_fd (e : SetupEnv) (s : UVCState) (mem : List Nat) :
    (detectInputFormat e s mem).2.v4l2_fd = s.v4l2_fd := by
  simp only [detectInputFormat]
  repeat' split
  all_goals simp [dsh_v4l2_fd]

theorem detect_detect_calls (e : SetupEnv) (s : UVCState) (mem : List Nat) :
    (detectInputFormat e s mem).2.detect_calls = s.detect_calls + 1 := by
  simp only [detectInputFormat]
  repeat' split
  all_goals simp [dsh_detect_calls]

theorem routeFrame_input_format (env : FrameEnv) (s : UVCState) (mem : List Nat) :
    (routeFrame env s mem).input_format = s.input_format := by
  simp only [routeFrame]
  repeat' split
  all_goals simp [omf_input_format, transcode_input_format]

theorem routeFrame_detect_calls (env : FrameEnv) (s : UVCState) (mem : List Nat) :
    (routeFrame env s mem).detect_calls = s.detect_calls := by
  simp only [routeFrame]
  repeat' split
  all_goals simp [omf_detect_calls, transcode_detect_calls]

theorem routeFrame_first_frame (env : FrameEnv) (s : UVCState) (mem : List Nat) :
    (routeFrame env s mem).first_frame = s.first_frame := by
  simp only [routeFrame]
  repeat' split
  all_goals simp [omf_first_frame, transcode_first_frame]

theorem routeFrame_v4l2_fd (env : FrameEnv) (s : UVCState) (mem : List Nat) :
    (routeFrame env s mem).v4l2_fd = s.v4l2_fd := by
  simp only [routeFrame]
  repeat' split
  all_goals simp [omf_v4l2_fd, transcode_v4l2_fd]

theorem routeFrame_cases (env : FrameEnv) (s : UVCState) (mem : List Nat) :
    ((routeFrame env s mem).frames_written = s.frames_written + 1 ∧
     (routeFrame env s mem).droppped_frames = s.droppped_frames) ∨
    ((routeFrame env s mem).frames_written = s.frames_written ∧
     (routeFrame env s mem).droppped_frames = s.droppped_frames + 1) := by
  simp only [routeFrame]
  split
  · exact outputMJPEGFrame_cases env.write_result s mem.length
  · split
    · split
      · rename_i n heq
        rcases outputMJPEGFrame_cases env.write_result
            (transcodeH264ToMJPEG env.transcode s mem.length).2 n with ⟨h1, h2⟩ | ⟨h1, h2⟩
        · left
          constructor
          · rw [h1, transcode_frames_written]
          · rw [h2, transcode_droppped]
        · right
          constructor
          · rw [h1, transcode_frames_written]
          · rw [h2, transcode_droppped]
      · right
        constructor
        · simp [transcode_frames_written]
        · simp [transcode_droppped]
    · right
      exact ⟨rfl, rfl⟩
  · right
    exact ⟨rfl, rfl⟩


/-! Claim theorems -/

/-- C1: on every `outputBuffer` call, exactly one of the counters
`frames_written_` and `droppped_frames_` increases, and by exactly 1 — the
frame is accounted as written or dropped on every control path (no device,
unknown format, native MJPEG write, transcode success, transcode failure,
transcoding disabled). -/
theorem C1_exactly_one_counter_increases (env : FrameEnv) (s : UVCState)
    (mem : List Nat) (ts : Int) (fl : Nat) :
    ((outputBuffer env s mem ts fl).frames_written = s.frames_written + 1 ∧
     (outputBuffer env s mem ts fl).droppped_frames = s.droppped_frames) ∨
    ((outputBuffer env s mem ts fl).frames_written = s.frames_written ∧
     (outputBuffer env s mem ts fl).droppped_frames = s.droppped_frames + 1) := by
  simp only [outputBuffer]
  split
  · right
    exact ⟨rfl, rfl⟩
  · split
    · split
      · right
        constructor
        · simp [detect_frames_written]
        · simp [detect_droppped_frames]
      · rcases routeFrame_cases env
            { (detectInputFormat env.setup s mem).2 with first_frame := false }
            mem with ⟨h1, h2⟩ | ⟨h1, h2⟩
        · left
          constructor
          · rw [h1]
            simp [detect_frames_written]
          · rw [h2]
            simp [detect_droppped_frames]
        · right
          constructor
          · rw [h1]
            simp [detect_frames_written]
          · rw [h2]
            simp [detect_droppped_frames]
    · exact routeFrame_cases env s mem

/-- C3: `outputMJPEGFrame` accounting — a full write (`write` returned
exactly `size`) bumps `frames_written_` by 1 and `bytes_written_` by `size`
leaving `droppped_frames_` alone; a failed or short/partial (or long) write
bumps `droppped_frames_` by 1 and leaves the other two counters alone. -/
theorem C3_write_accounting (w : WriteResult) (s : UVCState) (size : Nat) :
    ((outputMJPEGFrame w s size).frames_written,
     (outputMJPEGFrame w s size).bytes_written,
     (outputMJPEGFrame w s size).droppped_frames) =
      (match w with
       | WriteResult.err =>
           (s.frames_written, s.bytes_written, s.droppped_frames + 1)
       | WriteResult.ok n =>
           if n = size then
             (s.frames_written + 1, s.bytes_written + size, s.droppped_frames)
           else (s.frames_written, s.bytes_written, s.droppped_frames + 1)) := by
  cases w with
  | err => rfl
  | ok n =>
    simp only [outputMJPEGFrame]
    by_cases h : n = size
    · simp [h]
    · simp [h]

/-- C9: every buffer of length ≥ 4 that starts `FF D8` and ends `FF D9` is
classified MJPEG by `detectInputFormat`, whatever its interior bytes. -/
theorem C9_mjpeg_classified (e : SetupEnv) (s : UVCState) (mem : List Nat)
    (hlen : 4 ≤ mem.length)
    (h0 : mem.getD 0 0 = 0xFF) (h1 : mem.getD 1 0 = 0xD8)
    (h2 : mem.getD (mem.length - 2) 0 = 0xFF)
    (h3 : mem.getD (mem.length - 1) 0 = 0xD9) :
    (detectInputFormat e s mem).1 = true ∧
    (detectInputFormat e s mem).2.input_format = INPUT_FORMAT.FORMAT_MJPEG := by
  have hm : isMJPEGFrame mem = true := by
    simp only [isMJPEGFrame]
    rw [if_neg (by omega)]
    rw [if_neg (by push_neg; exact ⟨by simpa using h0, by simpa using h1⟩)]
    rw [if_neg (by push_neg; exact ⟨by simpa using h2, by simpa using h3⟩)]
  simp only [detectInputFormat]
  rw [if_neg (by omega), if_pos hm]
  exact ⟨rfl, rfl⟩

/-- Witness for C9 at the concrete buffer `FF D8 AB CD FF D9`. -/
theorem C9_mjpeg_classified_witness :
    (detectInputFormat envAllOk.setup (initState 3 1920 1080)
        [0xFF, 0xD8, 0xAB, 0xCD, 0xFF, 0xD9]).1 = true ∧
    (detectInputFormat envAllOk.setup (initState 3 1920 1080)
        [0xFF, 0xD8, 0xAB, 0xCD, 0xFF, 0xD9]).2.input_format =
      INPUT_FORMAT.FORMAT_MJPEG :=
  C9_mjpeg_classified envAllOk.setup (initState 3 1920 1080)
    [0xFF, 0xD8, 0xAB, 0xCD, 0xFF, 0xD9]
    (by decide) (by decide) (by decide) (by decide) (by decide)

/-- C10: `outputBuffer` never reads `timestamp_us` or `flags`: two calls in
the same state with the same buffer and the same external-call results but
different timestamps/flags produce identical successor states (hence
identical counters and written bytes). -/
theorem C10_timestamp_flags_irrelevant (env : FrameEnv) (s : UVCState)
    (mem : List Nat) (ts1 ts2 : Int) (fl1 fl2 : Nat) :
    outputBuffer env s mem ts1 fl1 = outputBuffer env s mem ts2 fl2 := rfl


/-- One already-classified call: with the first-frame flag cleared,
`outputBuffer` leaves the cached format untouched, never enters the
classifier, and the flag stays cleared. -/
theorem outputBuffer_classified_step (env : FrameEnv) (s : UVCState)
    (mem : List Nat) (ts : Int) (fl : Nat) (h : s.first_frame = false) :
    (outputBuffer env s mem ts fl).input_format = s.input_format ∧
    (outputBuffer env s mem ts fl).detect_calls = s.detect_calls ∧
    (outputBuffer env s mem ts fl).first_frame = false := by
  simp only [outputBuffer]
  split
  · exact ⟨rfl, rfl, h⟩
  · rw [if_neg (by simp [h])]
    refine ⟨routeFrame_input_format env s mem, routeFrame_detect_calls env s mem, ?_⟩
    rw [routeFrame_first_frame]
    exact h

/-- C4: once a successful classification has cached a known format — in the
code this is exactly when `first_frame_` has been cleared, which happens only
on `detectInputFormat` returning true with `input_format_` set to MJPEG or
H264 — no later sequence of `outputBuffer` calls changes `input_format_`,
and the classifier is never invoked again (the ghost `detect_calls` counter
stays put). -/
theorem C4_format_cached_forever (s : UVCState)
    (frames : List (FrameEnv × List Nat)) (h : s.first_frame = false) :
    (runFrames s frames).input_format = s.input_format ∧
    (runFrames s frames).detect_calls = s.detect_calls ∧
    (runFrames s frames).first_frame = false := by
  induction frames generalizing s with
  | nil => exact ⟨rfl, rfl, h⟩
  | cons f fs ih =>
    have hstep := outputBuffer_classified_step f.1 s f.2 0 0 h
    have hrec := ih (outputBuffer f.1 s f.2 0 0) hstep.2.2
    have hcons : runFrames s (f :: fs) = runFrames (outputBuffer f.1 s f.2 0 0) fs := rfl
    refine ⟨?_, ?_, ?_⟩
    · rw [hcons, hrec.1, hstep.1]
    · rw [hcons, hrec.2.1, hstep.2.1]
    · rw [hcons]
      exact hrec.2.2

/-- Witness for C4: a classified-MJPEG state, one further frame. -/
theorem C4_format_cached_forever_witness :
    (runFrames classifiedState
        [(envWrite6, [0xFF, 0xD8, 0x00, 0x00, 0xFF, 0xD9])]).input_format =
      classifiedState.input_format ∧
    (runFrames classifiedState
        [(envWrite6, [0xFF, 0xD8, 0x00, 0x00, 0xFF, 0xD9])]).detect_calls =
      classifiedState.detect_calls ∧
    (runFrames classifiedState
        [(envWrite6, [0xFF, 0xD8, 0x00, 0x00, 0xFF, 0xD9])]).first_frame = false :=
  C4_format_cached_forever classifiedState
    [(envWrite6, [0xFF, 0xD8, 0x00, 0x00, 0xFF, 0xD9])] rfl

/-- C6 counterexample: the first frame `01 02 03 04` classifies Unknown, and
the classifier runs AGAIN on the second call — the ghost `detect_calls`
counter reaches 2 — because `first_frame_` is cleared only on successful
classification (uvc_output.cpp:117-124). This refutes "the Frame Classifier
is never invoked again … even when the first frame classified as Unknown". -/
theorem C6_counterexample :
    (outputBuffer envAllOk (initState 3 64 48) [1, 2, 3, 4] 0 0).detect_calls = 1 ∧
    (outputBuffer envAllOk (initState 3 64 48) [1, 2, 3, 4] 0 0).first_frame = true ∧
    (outputBuffer envAllOk
        (outputBuffer envAllOk (initState 3 64 48) [1, 2, 3, 4] 0 0)
        [1, 2, 3, 4] 0 0).detect_calls = 2 := by
  decide

/-- C6 amended: classification runs on every call (with a valid device) for
which no classification has yet succeeded — an Unknown result does not lock
the decision in; only a successful classification clears `first_frame_`,
after which the classifier is never invoked again. -/
theorem C6_amended_classify_until_success (env : FrameEnv) (s : UVCState)
    (mem : List Nat) (ts : Int) (fl : Nat) :
    (outputBuffer env s mem ts fl).detect_calls =
      s.detect_calls +
        (if s.v4l2_fd < 0 then 0 else if s.first_frame = true then 1 else 0) ∧
    (s.first_frame = false → (outputBuffer env s mem ts fl).first_frame = false) := by
  simp only [outputBuffer]
  split
  · exact ⟨rfl, fun h => h⟩
  · split
    · rename_i hfd hff
      constructor
      · split
        · simp [detect_detect_calls]
        · rw [routeFrame_detect_calls]
          simp [detect_detect_calls]
      · intro h
        rw [h] at hff
        cases hff
    · constructor
      · simp [routeFrame_detect_calls]
      · intro h
        rw [routeFrame_first_frame]
        exact h

/-- Witness for C6 amended at a classified state (classifier not invoked). -/
theorem C6_amended_witness :
    (outputBuffer envAllOk classifiedState [1, 2, 3, 4] 0 0).detect_calls =
      classifiedState.detect_calls +
        (if classifiedState.v4l2_fd < 0 then 0
         else if classifiedState.first_frame = true then 1 else 0) ∧
    (classifiedState.first_frame = false →
      (outputBuffer envAllOk classifiedState [1, 2, 3, 4] 0 0).first_frame = false) :=
  C6_amended_classify_until_success envAllOk classifiedState [1, 2, 3, 4] 0 0

/-- C2 counterexample: a buffer of length exactly 4 equal to `00 00 00 01`
is NOT classified H264: `detectInputFormat` requires `size > 4` for the
4-byte start-code rule (uvc_output.cpp:171) and `size > 3` plus a `00 00 01`
prefix for the 3-byte rule, so this buffer falls through and stays
Unknown. -/
theorem C2_counterexample :
    (detectInputFormat envAllOk.setup (initState 3 64 48)
        [0x00, 0x00, 0x00, 0x01]).1 = false ∧
    (detectInputFormat envAllOk.setup (initState 3 64 48)
        [0x00, 0x00, 0x00, 0x01]).2.input_format =
      INPUT_FORMAT.FORMAT_UNKNOWN ∧
    (detectInputFormat envAllOk.setup (initState 3 64 48)
        [0x00, 0x00, 0x01]).1 = false ∧
    (detectInputFormat envAllOk.setup (initState 3 64 48)
        [0x00, 0x00, 0x01]).2.input_format = INPUT_FORMAT.FORMAT_UNKNOWN := by
  decide

/-- C2 amended: buffers of length ≥ 5 beginning `00 00 00 01` are classified
H264 (4-byte start code), and buffers of length ≥ 4 beginning `00 00 01`
(which cannot match the 4-byte rule) are classified H264 (3-byte start
code); a buffer of length exactly 4 equal to `00 00 00 01` is classified
Unknown (shown by the counterexample). -/
theorem C2_amended_h264_rules (e : SetupEnv) (s : UVCState) (mem : List Nat)
    (h : (4 < mem.length ∧ mem.getD 0 0 = 0x00 ∧ mem.getD 1 0 = 0x00 ∧
          mem.getD 2 0 = 0x00 ∧ mem.getD 3 0 = 0x01) ∨
         (3 < mem.length ∧ mem.getD 0 0 = 0x00 ∧ mem.getD 1 0 = 0x00 ∧
          mem.getD 2 0 = 0x01)) :
    (detectInputFormat e s mem).2.input_format = INPUT_FORMAT.FORMAT_H264 := by
  have hlen3 : 3 < mem.length := by rcases h with ⟨hl, _⟩ | ⟨hl, _⟩ <;> omega
  have h0 : mem.getD 0 0 = 0x00 := by
    rcases h with ⟨_, h0, _⟩ | ⟨_, h0, _⟩ <;> exact h0
  have hm : isMJPEGFrame mem = false := by
    simp only [isMJPEGFrame]
    rw [if_neg (by omega), if_pos (Or.inl (by rw [h0]; decide))]
  simp only [detectInputFormat]
  rw [if_neg (by omega), if_neg (by simp [hm])]
  rcases h with ⟨hl, h0, h1, h2, h3⟩ | ⟨hl, h0, h1, h2⟩
  · rw [if_pos ⟨hl, h0, h1, h2, h3⟩]
    simp [dsh_input_format]
  · rw [if_neg (by rintro ⟨_, _, _, hc, _⟩; omega)]
    rw [if_pos ⟨hl, h0, h1, h2⟩]
    simp [dsh_input_format]

/-- Witness for C2 amended at the 5-byte buffer `00 00 00 01 65`. -/
theorem C2_amended_witness :
    (detectInputFormat envAllOk.setup (initState 3 64 48)
        [0x00, 0x00, 0x00, 0x01, 0x65]).2.input_format =
      INPUT_FORMAT.FORMAT_H264 :=
  C2_amended_h264_rules envAllOk.setup (initState 3 64 48)
    [0x00, 0x00, 0x00, 0x01, 0x65] (Or.inl (by decide))


/-- C5 counterexample: with the transcoder build failing, an H.264 frame is
dropped but `first_frame_` stays set, so the NEXT H.264 frame triggers a
second `setupTranscoder` attempt (the ghost `setup_attempts` counter reaches
2); and when a later attempt succeeds the frame is transcoded and written.
This refutes both "construction is never attempted again" and "every
subsequent frame of the stream is dropped". -/
theorem C5_counterexample :
    (outputBuffer envSetupFail (initState 3 64 48)
        [0x00, 0x00, 0x00, 0x01, 0x65] 0 0).setup_attempts = 1 ∧
    (outputBuffer envSetupFail (initState 3 64 48)
        [0x00, 0x00, 0x00, 0x01, 0x65] 0 0).first_frame = true ∧
    (outputBuffer envSetupFail
        (outputBuffer envSetupFail (initState 3 64 48)
          [0x00, 0x00, 0x00, 0x01, 0x65] 0 0)
        [0x00, 0x00, 0x00, 0x01, 0x65] 0 0).setup_attempts = 2 ∧
    (outputBuffer envAllOk
        (outputBuffer envSetupFail (initState 3 64 48)
          [0x00, 0x00, 0x00, 0x01, 0x65] 0 0)
        [0x00, 0x00, 0x00, 0x01, 0x65] 0 0).frames_written = 1 := by
  decide

/-- C5 amended: when transcoder construction fails on a frame bearing
either H.264 start code — the 4-byte `00 00 00 01` (uvc_output.cpp:171) or
the 3-byte Annex-B `00 00 01` (uvc_output.cpp:187), both of which reach the
identical setup path — the frame is dropped, transcoding stays disabled,
and the stream is left uncommitted (`first_frame_` stays true), so
construction is re-attempted on the next start-code frame rather than never
again, and frames are written again if a retry succeeds (counterexample).
This theorem characterizes one failing call, including the construction
attempt it makes. -/
theorem C5_amended_setup_retried (env : FrameEnv) (s : UVCState)
    (mem : List Nat) (ts : Int) (fl : Nat)
    (hfd : ¬ s.v4l2_fd < 0) (hff : s.first_frame = true)
    (hfmt : s.output_format = V4L2_PIX_FMT_MJPEG)
    (h : (4 < mem.length ∧ mem.getD 0 0 = 0x00 ∧ mem.getD 1 0 = 0x00 ∧
          mem.getD 2 0 = 0x00 ∧ mem.getD 3 0 = 0x01) ∨
         (3 < mem.length ∧ mem.getD 0 0 = 0x00 ∧ mem.getD 1 0 = 0x00 ∧
          mem.getD 2 0 = 0x01))
    (hfail : setupSucceeds env.setup = false) :
    (outputBuffer env s mem ts fl).first_frame = true ∧
    (outputBuffer env s mem ts fl).transcoding_enabled = false ∧
    (outputBuffer env s mem ts fl).setup_attempts = s.setup_attempts + 1 ∧
    (outputBuffer env s mem ts fl).droppped_frames = s.droppped_frames + 1 := by
  have hlen3 : 3 < mem.length := by
    rcases h with ⟨hl, _⟩ | ⟨hl, _⟩ <;> omega
  have h0 : mem.getD 0 0 = 0x00 := by
    rcases h with ⟨_, h0, _⟩ | ⟨_, h0, _⟩ <;> exact h0
  have hm : isMJPEGFrame mem = false := by
    simp only [isMJPEGFrame]
    rw [if_neg (by omega), if_pos (Or.inl (by rw [h0]; decide))]
  have hdet : detectInputFormat env.setup s mem =
      (false,
        { (setupTranscoder env.setup
            { s with detect_calls := s.detect_calls + 1,
                     input_format := INPUT_FORMAT.FORMAT_H264 }).2 with
          transcoding_enabled :=
            (setupTranscoder env.setup
              { s with detect_calls := s.detect_calls + 1,
                       input_format := INPUT_FORMAT.FORMAT_H264 }).1 }) := by
    simp only [detectInputFormat]
    rcases h with ⟨hl, h0a, h1, h2, h3⟩ | ⟨hl, h0a, h1, h2⟩
    · rw [if_neg (by omega), if_neg (by simp [hm]),
          if_pos ⟨hl, h0a, h1, h2, h3⟩]
      simp only [detectSetupH264]
      rw [if_pos hfmt, if_pos (by simp [setup_fst, hfail])]
    · rw [if_neg (by omega), if_neg (by simp [hm]),
          if_neg (by rintro ⟨_, _, _, hc, _⟩; omega),
          if_pos ⟨hl, h0a, h1, h2⟩]
      simp only [detectSetupH264]
      rw [if_pos hfmt, if_pos (by simp [setup_fst, hfail])]
  have hout : outputBuffer env s mem ts fl =
      { (detectInputFormat env.setup s mem).2 with
        droppped_frames :=
          (detectInputFormat env.setup s mem).2.droppped_frames + 1 } := by
    simp only [outputBuffer]
    rw [if_neg hfd, if_pos hff, if_pos (by rw [hdet])]
  rw [hout, hdet]
  refine ⟨?_, ?_, ?_, ?_⟩
  · simp [setup_first_frame, hff]
  · simp [setup_fst, hfail]
  · simp [setup_attempts_succ]
  · simp [setup_droppped]

/-- Witness for C5 amended: the failing construction on a first frame
bearing the 3-byte Annex-B start code `00 00 01 65`. -/
theorem C5_amended_witness :
    (outputBuffer envSetupFail (initState 3 64 48)
        [0x00, 0x00, 0x01, 0x65] 0 0).first_frame = true ∧
    (outputBuffer envSetupFail (initState 3 64 48)
        [0x00, 0x00, 0x01, 0x65] 0 0).transcoding_enabled = false ∧
    (outputBuffer envSetupFail (initState 3 64 48)
        [0x00, 0x00, 0x01, 0x65] 0 0).setup_attempts =
      (initState 3 64 48).setup_attempts + 1 ∧
    (outputBuffer envSetupFail (initState 3 64 48)
        [0x00, 0x00, 0x01, 0x65] 0 0).droppped_frames =
      (initState 3 64 48).droppped_frames + 1 :=
  C5_amended_setup_retried envSetupFail (initState 3 64 48)
    [0x00, 0x00, 0x01, 0x65] 0 0
    (by decide) rfl rfl (Or.inr (by decide)) (by decide)


/-- On success, `setupTranscoder` installs opened decoder and encoder
contexts, all four frames/packets and the transcode buffer, and leaves the
scaling context untouched. -/
theorem setup_success_state (e : SetupEnv) (s : UVCState)
    (hs : setupSucceeds e = true) :
    (setupTranscoder e s).2.decoder_context = some ⟨true, 0, 0⟩ ∧
    (setupTranscoder e s).2.encoder_context =
      some ⟨true, s.output_width, s.output_height⟩ ∧
    (setupTranscoder e s).2.decode_frame = true ∧
    (setupTranscoder e s).2.encode_frame = true ∧
    (setupTranscoder e s).2.decode_packet = true ∧
    (setupTranscoder e s).2.encode_packet = true ∧
    (setupTranscoder e s).2.transcode_buffer = true ∧
    (setupTranscoder e s).2.sws_ctx = s.sws_ctx := by
  simp only [setupSucceeds, Bool.and_eq_true] at hs
  rw [setupTranscoder_eq]
  rw [if_neg (by simp [hs]), if_neg (by simp [hs]), if_neg (by simp [hs]),
      if_neg (by simp [hs])]
  exact ⟨rfl, rfl, rfl, rfl, rfl, rfl, rfl, rfl⟩

/-- On failure, `setupTranscoder` leaves every transcoder handle absent
provided they were absent beforehand (either nothing was allocated yet or
`cleanupTranscoder` ran). -/
theorem setup_failure_state (e : SetupEnv) (s : UVCState)
    (hs : setupSucceeds e = false)
    (hd : s.decoder_context = none) (he : s.encoder_context = none)
    (hdf : s.decode_frame = false) (hef : s.encode_frame = false)
    (hdp : s.decode_packet = false) (hep : s.encode_packet = false)
    (hsw : s.sws_ctx = none) (htb : s.transcode_buffer = false) :
    (setupTranscoder e s).2.decoder_context = none ∧
    (setupTranscoder e s).2.encoder_context = none ∧
    (setupTranscoder e s).2.decode_frame = false ∧
    (setupTranscoder e s).2.encode_frame = false ∧
    (setupTranscoder e s).2.decode_packet = false ∧
    (setupTranscoder e s).2.encode_packet = false ∧
    (setupTranscoder e s).2.sws_ctx = none ∧
    (setupTranscoder e s).2.transcode_buffer = false := by
  rw [setupTranscoder_eq]
  repeat' split
  all_goals simp_all [setupSucceeds]


/-- Transfer of `transcoderInv` along states agreeing on the relevant
fields; the scaling context only has to agree when transcoding is off. -/
theorem transcoderInv_congr (a b : UVCState)
    (hen : a.transcoding_enabled = b.transcoding_enabled)
    (hdec : a.decoder_context.map CodecCtx.opened =
      b.decoder_context.map CodecCtx.opened)
    (henc : a.encoder_context = b.encoder_context)
    (hdf : a.decode_frame = b.decode_frame)
    (hef : a.encode_frame = b.encode_frame)
    (hdp : a.decode_packet = b.decode_packet)
    (hep : a.encode_packet = b.encode_packet)
    (hsw : a.transcoding_enabled = false → a.sws_ctx = b.sws_ctx)
    (htb : a.transcode_buffer = b.transcode_buffer)
    (hb : transcoderInv b) : transcoderInv a := by
  obtain ⟨hbT, hbF⟩ := hb
  constructor
  · intro ha
    obtain ⟨p1, p2, p3, p4, p5, p6, p7⟩ := hbT (hen ▸ ha)
    exact ⟨hdec.trans p1, by rw [henc]; exact p2, hdf.trans p3, hef.trans p4,
           hdp.trans p5, hep.trans p6, htb.trans p7⟩
  · intro ha
    obtain ⟨q1, q2, q3, q4, q5, q6, q7, q8⟩ := hbF (hen ▸ ha)
    refine ⟨?_, henc.trans q2, hdf.trans q3, hef.trans q4,
            hdp.trans q5, hep.trans q6, (hsw ha).trans q7, htb.trans q8⟩
    have hnone : a.decoder_context.map CodecCtx.opened = none := by
      rw [hdec, q1]
      rfl
    exact Option.map_eq_none'.mp hnone

/-- Routing preserves the transcoder invariant and the transcoding
flag. -/
theorem routeFrame_transcoderInv (env : FrameEnv) (s : UVCState)
    (mem : List Nat) (hT : transcoderInv s) :
    transcoderInv (routeFrame env s mem) ∧
    (routeFrame env s mem).transcoding_enabled = s.transcoding_enabled := by
  simp only [routeFrame]
  split
  · constructor
    · exact transcoderInv_congr _ s (omf_transcoding_enabled _ _ _)
        (by rw [omf_decoder_context]) (omf_encoder_context _ _ _)
        (omf_decode_frame _ _ _) (omf_encode_frame _ _ _)
        (omf_decode_packet _ _ _) (omf_encode_packet _ _ _)
        (fun _ => omf_sws_ctx _ _ _) (omf_transcode_buffer _ _ _) hT
    · exact omf_transcoding_enabled _ _ _
  · split
    · rename_i hen
      have htr : transcoderInv (transcodeH264ToMJPEG env.transcode s mem.length).2 :=
        transcoderInv_congr _ s (transcode_enabled _ _ _)
          (transcode_decoder_opened _ _ _) (transcode_encoder_context _ _ _)
          (transcode_decode_frame _ _ _) (transcode_encode_frame _ _ _)
          (transcode_decode_packet _ _ _) (transcode_encode_packet _ _ _)
          (fun hc => absurd ((transcode_enabled _ _ _).symm.trans hc |>.symm.trans hen) (by simp))
          (transcode_buffer_kept _ _ _) hT
      split
      · constructor
        · exact transcoderInv_congr _ _ (omf_transcoding_enabled _ _ _)
            (by rw [omf_decoder_context]) (omf_encoder_context _ _ _)
            (omf_decode_frame _ _ _) (omf_encode_frame _ _ _)
            (omf_decode_packet _ _ _) (omf_encode_packet _ _ _)
            (fun _ => omf_sws_ctx _ _ _) (omf_transcode_buffer _ _ _) htr
        · rw [omf_transcoding_enabled, transcode_enabled]
      · constructor
        · exact transcoderInv_congr _ _ rfl rfl rfl rfl rfl rfl rfl
            (fun _ => rfl) rfl htr
        · exact transcode_enabled _ _ _
    · exact ⟨transcoderInv_congr _ s rfl rfl rfl rfl rfl rfl rfl
        (fun _ => rfl) rfl hT, rfl⟩
  · exact ⟨transcoderInv_congr _ s rfl rfl rfl rfl rfl rfl rfl
      (fun _ => rfl) rfl hT, rfl⟩



/-- Through the duplicated H.264 setup tail, the transcoder invariant is
reestablished: on setup success all handles are installed, on failure all
stay absent and transcoding stays disabled. -/
theorem dsh_transcoderInv (e : SetupEnv) (s : UVCState)
    (hen : s.transcoding_enabled = false)
    (hd : s.decoder_context = none) (he : s.encoder_context = none)
    (hdf : s.decode_frame = false) (hef : s.encode_frame = false)
    (hdp : s.decode_packet = false) (hep : s.encode_packet = false)
    (hsw : s.sws_ctx = none) (htb : s.transcode_buffer = false) :
    transcoderInv (detectSetupH264 e s).2 ∧
    ((detectSetupH264 e s).1 = false →
      (detectSetupH264 e s).2.transcoding_enabled = false) := by
  simp only [detectSetupH264]
  split
  · split
    · rename_i hx
      have hr1 : (setupTranscoder e s).1 = false := by simpa using hx
      have hsf : setupSucceeds e = false := by rw [setup_fst] at hr1; exact hr1
      obtain ⟨f1, f2, f3, f4, f5, f6, f7, f8⟩ :=
        setup_failure_state e s hsf hd he hdf hef hdp hep hsw htb
      refine ⟨⟨?_, ?_⟩, ?_⟩
      · intro hc
        exact absurd (hr1.symm.trans hc) (by simp)
      · intro _
        exact ⟨f1, f2, f3, f4, f5, f6, f7, f8⟩
      · intro _
        exact hr1
    · rename_i hx
      have hr1 : (setupTranscoder e s).1 = true := by simpa using hx
      have hst : setupSucceeds e = true := by rw [setup_fst] at hr1; exact hr1
      obtain ⟨g1, g2, g3, g4, g5, g6, g7, g8⟩ := setup_success_state e s hst
      refine ⟨⟨?_, ?_⟩, ?_⟩
      · intro _
        refine ⟨?_, ?_, g3, g4, g5, g6, g7⟩
        · show (setupTranscoder e s).2.decoder_context.map CodecCtx.opened =
            some true
          rw [g1]
          rfl
        · show (setupTranscoder e s).2.encoder_context.map CodecCtx.opened =
            some true
          rw [g2]
          rfl
      · intro hc
        exact absurd (hr1.symm.trans hc) (by simp)
      · intro hcontra
        exact absurd hcontra (by simp)
  · refine ⟨⟨?_, ?_⟩, ?_⟩
    · intro hc
      exact absurd (hen.symm.trans hc) (by simp)
    · intro _
      exact ⟨hd, he, hdf, hef, hdp, hep, hsw, htb⟩
    · intro hcontra
      exact absurd hcontra (by simp)

/-- During classification (transcoding off, handles absent),
`detectInputFormat` reestablishes the transcoder invariant, and whenever it
returns false it leaves transcoding disabled. -/
theorem detect_transcoderInv (e : SetupEnv) (s : UVCState) (mem : List Nat)
    (hT : transcoderInv s) (hen : s.transcoding_enabled = false) :
    transcoderInv (detectInputFormat e s mem).2 ∧
    ((detectInputFormat e s mem).1 = false →
      (detectInputFormat e s mem).2.transcoding_enabled = false) := by
  obtain ⟨hd, he, hdf, hef, hdp, hep, hsw, htb⟩ := hT.2 hen
  simp only [detectInputFormat]
  split
  · exact ⟨⟨fun hc => absurd (hen.symm.trans hc) (by simp),
            fun _ => ⟨hd, he, hdf, hef, hdp, hep, hsw, htb⟩⟩, fun _ => hen⟩
  · split
    · exact ⟨⟨fun hc => absurd (hen.symm.trans hc) (by simp),
              fun _ => ⟨hd, he, hdf, hef, hdp, hep, hsw, htb⟩⟩,
             fun hcontra => absurd hcontra (by simp)⟩
    · split
      · exact dsh_transcoderInv e _ hen hd he hdf hef hdp hep hsw htb
      · split
        · exact dsh_transcoderInv e _ hen hd he hdf hef hdp hep hsw htb
        · exact ⟨⟨fun hc => absurd (hen.symm.trans hc) (by simp),
                  fun _ => ⟨hd, he, hdf, hef, hdp, hep, hsw, htb⟩⟩,
                 fun _ => hen⟩

/-- Each `outputBuffer` call preserves the strengthened invariant. -/
theorem stateInv_step (env : FrameEnv) (s : UVCState) (mem : List Nat)
    (ts : Int) (fl : Nat) (h : stateInv s) :
    stateInv (outputBuffer env s mem ts fl) := by
  obtain ⟨hT, hFF⟩ := h
  simp only [outputBuffer]
  split
  · exact ⟨⟨fun hc => hT.1 hc, fun hc => hT.2 hc⟩, fun hc => hFF hc⟩
  · split
    · rename_i hfd hff
      have hen := hFF hff
      have hdet := detect_transcoderInv env.setup s mem hT hen
      split
      · rename_i hr1
        exact ⟨⟨fun hc => hdet.1.1 hc, fun hc => hdet.1.2 hc⟩,
               fun _ => hdet.2 hr1⟩
      · have hTA : transcoderInv
            { (detectInputFormat env.setup s mem).2 with first_frame := false } :=
          ⟨fun hc => hdet.1.1 hc, fun hc => hdet.1.2 hc⟩
        have hroute := routeFrame_transcoderInv env _ mem hTA
        refine ⟨hroute.1, fun hc => ?_⟩
        rw [routeFrame_first_frame] at hc
        exact absurd hc (by simp)
    · rename_i hfd hff
      have hroute := routeFrame_transcoderInv env s mem hT
      refine ⟨hroute.1, fun hc => ?_⟩
      rw [routeFrame_first_frame] at hc
      exact absurd hc hff

/-- The strengthened invariant holds along every run. -/
theorem stateInv_run (s : UVCState) (frames : List (FrameEnv × List Nat))
    (h : stateInv s) : stateInv (runFrames s frames) := by
  induction frames generalizing s with
  | nil => exact h
  | cons f fs ih => exact ih _ (stateInv_step f.1 s f.2 0 0 h)

/-- A freshly constructed stage satisfies the strengthened invariant. -/
theorem initState_stateInv (fd : Int) (w h : Nat) :
    stateInv (initState fd w h) := by
  refine ⟨⟨?_, ?_⟩, ?_⟩
  · intro hc
    exact absurd hc (by simp [initState])
  · intro _
    exact ⟨rfl, rfl, rfl, rfl, rfl, rfl, rfl, rfl⟩
  · intro _
    rfl


/-- C7 counterexample: after the transcoder is built on the first H.264
frame but the decoder's first `avcodec_receive_frame` reports `EAGAIN`
(ordinary codec buffering), the state reached between `outputBuffer` calls
has `transcoding_enabled_ = true`, a live decoder context — yet NO
scaler/converter context: `setupTranscoder` never creates `sws_ctx_`
(it is built lazily at uvc_output.cpp:362-381). This refutes "if
transcoding_enabled is true then all four sub-handles are valid". -/
theorem C7_counterexample :
    (outputBuffer envDecoderBuffering (initState 3 64 48)
        [0x00, 0x00, 0x00, 0x01, 0x65] 0 0).transcoding_enabled = true ∧
    (outputBuffer envDecoderBuffering (initState 3 64 48)
        [0x00, 0x00, 0x00, 0x01, 0x65] 0 0).decoder_context.isSome = true ∧
    (outputBuffer envDecoderBuffering (initState 3 64 48)
        [0x00, 0x00, 0x00, 0x01, 0x65] 0 0).sws_ctx = none := by
  decide

/-- C7 amended: in every reachable state between `outputBuffer` calls, if
`transcoding_enabled_` is true then the decoder context, encoder context,
the frames/packets and the transcode buffer are all valid and opened — but
the scaler/converter context is built lazily during transcode and may still
be absent; if `transcoding_enabled_` is false, every sub-handle including
the scaler is absent. Never a half-initialized mixture beyond the lazy
scaler. -/
theorem C7_amended_transcoder_invariant (fd : Int) (w h : Nat)
    (frames : List (FrameEnv × List Nat)) :
    transcoderInv (runFrames (initState fd w h) frames) :=
  (stateInv_run (initState fd w h) frames (initState_stateInv fd w h)).1

/-- Witness for C7 amended at the very run of the counterexample: the
invariant holds there because it does not demand an eager scaler. -/
theorem C7_amended_witness :
    transcoderInv (runFrames (initState 3 64 48)
      [(envDecoderBuffering, [0x00, 0x00, 0x00, 0x01, 0x65])]) :=
  C7_amended_transcoder_invariant 3 64 48
    [(envDecoderBuffering, [0x00, 0x00, 0x00, 0x01, 0x65])]

/-- C8 counterexample: frame 1 builds the scaler for 64×48 source pictures
(`sws_rebuilds` reaches 1). On frame 2 the decoded picture is 32×24 — it
differs from the scaler's last-configured 64×48 source dimensions — but the
decoder context also reports 32×24, and since the code compares the picture
against `decoder_context_` (uvc_output.cpp:363-364) rather than against the
scaler's configuration, NO rebuild happens: `sws_rebuilds` stays 1 and
`sws_ctx_` remains configured for 64×48. This refutes "rebuilt exactly when
the decoded picture's source width or height differs from the source
dimensions the scaling context was last configured with". -/
theorem C8_counterexample :
    (outputBuffer envAllOk (initState 3 64 48)
        [0x00, 0x00, 0x00, 0x01, 0x65] 0 0).sws_rebuilds = 1 ∧
    (outputBuffer envAllOk (initState 3 64 48)
        [0x00, 0x00, 0x00, 0x01, 0x65] 0 0).sws_ctx = some ⟨64, 48, 0⟩ ∧
    (outputBuffer envShrunkPicture
        (outputBuffer envAllOk (initState 3 64 48)
          [0x00, 0x00, 0x00, 0x01, 0x65] 0 0)
        [0x00, 0x00, 0x00, 0x01, 0x65] 0 0).sws_rebuilds = 1 ∧
    (outputBuffer envShrunkPicture
        (outputBuffer envAllOk (initState 3 64 48)
          [0x00, 0x00, 0x00, 0x01, 0x65] 0 0)
        [0x00, 0x00, 0x00, 0x01, 0x65] 0 0).sws_ctx = some ⟨64, 48, 0⟩ := by
  decide

/-- C8 amended: on a transcode call that obtains a decoded picture, the
scaling context is rebuilt exactly when no context exists yet OR the
picture's dimensions differ from the DECODER CONTEXT's current dimensions
(the comparison the code actually makes) — not from the scaler's
last-configured source dimensions; when the picture matches the decoder
context and a scaler exists, no rebuild occurs and the scaler is kept
as-is, even if it was configured for different source dimensions. -/
theorem C8_amended_rebuild_iff (env : TranscodeEnv) (s : UVCState) (n : Nat)
    (pic : Picture) (c : CodecCtx)
    (hen : s.transcoding_enabled = true) (hsend : env.send_packet_ok = true)
    (hrec : env.receive_frame = some pic) (hdec : s.decoder_context = some c) :
    ((transcodeH264ToMJPEG env s n).2.sws_rebuilds = s.sws_rebuilds + 1 ↔
      (s.sws_ctx = none ∨ pic.width ≠ env.dec_ctx_width ∨
       pic.height ≠ env.dec_ctx_height)) ∧
    ((s.sws_ctx ≠ none ∧ pic.width = env.dec_ctx_width ∧
      pic.height = env.dec_ctx_height) →
      (transcodeH264ToMJPEG env s n).2.sws_ctx = s.sws_ctx ∧
      (transcodeH264ToMJPEG env s n).2.sws_rebuilds = s.sws_rebuilds) := by
  simp only [transcodeH264ToMJPEG]
  rw [if_neg (by simp [hen]), if_neg (by simp [hsend]), hrec]
  simp only [hdec, Option.map_some, Option.getD_some]
  constructor
  · constructor
    · intro hreb
      by_contra hcond
      rw [if_neg ?hc] at hreb
      case hc =>
        intro hor
        exact hcond (by simpa using hor)
      rw [transcodeEncode_snd] at hreb
      simp at hreb
    · intro hcond
      rw [if_pos (by simpa using hcond)]
      split
      · rw [transcodeEncode_snd]
      · rfl
  · rintro ⟨hsome, hw, hh⟩
    rw [if_neg ?hc2]
    case hc2 =>
      rintro (h1 | h2 | h3)
      · exact hsome h1
      · exact h2 hw
      · exact h3 hh
    rw [transcodeEncode_snd]
    exact ⟨rfl, rfl⟩

/-- Witness for C8 amended: mid-stream 32×24 picture with decoder context
in step, scaler configured for 64×48 — no rebuild. -/
theorem C8_amended_witness :
    ((transcodeH264ToMJPEG envShrunkPicture.transcode transcodingState
        5).2.sws_rebuilds = transcodingState.sws_rebuilds + 1 ↔
      (transcodingState.sws_ctx = none ∨
       Picture.width ⟨32, 24, 0⟩ ≠ envShrunkPicture.transcode.dec_ctx_width ∨
       Picture.height ⟨32, 24, 0⟩ ≠ envShrunkPicture.transcode.dec_ctx_height)) ∧
    ((transcodingState.sws_ctx ≠ none ∧
      Picture.width ⟨32, 24, 0⟩ = envShrunkPicture.transcode.dec_ctx_width ∧
      Picture.height ⟨32, 24, 0⟩ = envShrunkPicture.transcode.dec_ctx_height) →
      (transcodeH264ToMJPEG envShrunkPicture.transcode transcodingState
          5).2.sws_ctx = transcodingState.sws_ctx ∧
      (transcodeH264ToMJPEG envShrunkPicture.transcode transcodingState
          5).2.sws_rebuilds = transcodingState.sws_rebuilds) :=
  C8_amended_rebuild_iff envShrunkPicture.transcode transcodingState 5
    ⟨32, 24, 0⟩ ⟨true, 64, 48⟩ rfl rfl rfl rfl

end UVCOutput
